import Mathlib

/-!
Shallow embedding of the simulation core of `src/main.cpp` (a small 3D arcade
game): the per-entity kinematic solver, the player jump machinery, the clown
and mummy AI, the bomb pool, the dog companion AI, the pause gate and the
seeded LCG.  All float arithmetic of the source is modelled exactly over `ℚ`;
calls into the C math library (`sqrt`, `cos`, `sin`, `atan2`) are modelled by
an explicit `MathFns` record of rational functions, and theorems that depend
on the value of a square root carry hypotheses pinning that value at the
points actually evaluated.  `sqRef` is a concrete instance that is exact on
perfect rational squares; concrete counterexamples and witnesses are chosen so
that every square root they evaluate is a perfect rational square, and they
assert that fact explicitly.
-/

set_option linter.unusedVariables false

namespace Vibe3D

/-- A 3D vector with exact rational components (models `glm::vec3`). -/
structure Vec3 where
  x : ℚ
  y : ℚ
  z : ℚ
  deriving DecidableEq, Repr, Inhabited

/-- An axis-aligned box platform (source `struct Platform`). -/
structure Platform where
  position : Vec3
  halfExtents : Vec3
  tint : Vec3
  deriving DecidableEq, Repr, Inhabited

/-- The world's platform list (source `std::vector<Platform> platforms`,
main.cpp lines 740-755).  Index 0 is the ground. -/
def platforms : List Platform := [
  ⟨⟨0, -1, 0⟩, ⟨22, 1/2, 22⟩, ⟨3/5, 7/10, 4/5⟩⟩,
  ⟨⟨4, 1, 0⟩, ⟨9/5, 3/10, 9/5⟩, ⟨9/10, 7/10, 2/5⟩⟩,
  ⟨⟨-3, 11/5, -5/2⟩, ⟨6/5, 3/10, 6/5⟩, ⟨1/2, 9/10, 3/5⟩⟩,
  ⟨⟨7, 16/5, 5/2⟩, ⟨6/5, 3/10, 6/5⟩, ⟨3/5, 4/5, 9/10⟩⟩,
  ⟨⟨-8, 7/5, 4⟩, ⟨2, 3/10, 1⟩, ⟨4/5, 3/5, 7/10⟩⟩,
  ⟨⟨-11, 3, 6⟩, ⟨7/5, 3/10, 7/5⟩, ⟨7/10, 4/5, 1/2⟩⟩,
  ⟨⟨10, 9/5, -6⟩, ⟨8/5, 3/10, 6/5⟩, ⟨3/5, 9/10, 7/10⟩⟩,
  ⟨⟨14, 3, -8⟩, ⟨6/5, 3/10, 6/5⟩, ⟨9/10, 4/5, 1/2⟩⟩,
  ⟨⟨-12, 1, -4⟩, ⟨6/5, 3/10, 6/5⟩, ⟨7/10, 4/5, 7/10⟩⟩,
  ⟨⟨-14, 8/5, -6⟩, ⟨6/5, 3/10, 6/5⟩, ⟨7/10, 3/5, 9/10⟩⟩,
  ⟨⟨-18, 12/5, -9⟩, ⟨11/10, 3/10, 11/10⟩, ⟨9/10, 3/5, 3/5⟩⟩,
  ⟨⟨5, 18/5, 8⟩, ⟨6/5, 3/10, 6/5⟩, ⟨3/5, 4/5, 3/5⟩⟩,
  ⟨⟨-2, 21/5, 17/2⟩, ⟨1, 3/10, 1⟩, ⟨4/5, 7/10, 3/5⟩⟩,
  ⟨⟨-6, 23/5, 9⟩, ⟨1, 3/10, 1⟩, ⟨7/10, 7/10, 9/10⟩⟩]

/-- Gravity for all walking entities (source `const float gravity = -18.0f`). -/
def gravity : ℚ := -18

/-- The top plane of a platform, `P.position.y + P.halfExtents.y`. -/
def platformTop (P : Platform) : ℚ := P.position.y + P.halfExtents.y

/-- Top of the ground platform, `platforms[0].position.y +
platforms[0].halfExtents.y` (= -0.5 for the concrete world). -/
def groundTop : ℚ := platformTop platforms.headI

/-- Kinematic state of a cube entity: position, velocity, ground flag. -/
structure Body where
  position : Vec3
  velocity : Vec3
  onGround : Bool
  deriving DecidableEq, Repr, Inhabited

/-- Ground-floor resolution (main.cpp lines 993-997 and the analogous clown /
mummy / dog blocks): if `p.y - h < groundTop`, snap on top of the ground. -/
def resolveGround (h gtop : ℚ) (s : Body) : Body :=
  if s.position.y - h < gtop then
    { s with position := { s.position with y := gtop + h },
             velocity := { s.velocity with y := 0 },
             onGround := true }
  else s

/-- The five-part contact condition of the per-platform landing check
(main.cpp lines 1002-1007). -/
def platHit (h : ℚ) (P : Platform) (s : Body) : Prop :=
  |s.position.x - P.position.x| ≤ P.halfExtents.x + h ∧
  |s.position.z - P.position.z| ≤ P.halfExtents.z + h ∧
  s.velocity.y ≤ 0 ∧
  s.position.y - h < platformTop P ∧
  s.position.y > platformTop P - 3/5

instance (h : ℚ) (P : Platform) (s : Body) : Decidable (platHit h P s) := by
  unfold platHit; infer_instance

/-- One iteration of the platform-landing loop (main.cpp lines 999-1013):
snap onto the top of `P` when `platHit` holds. -/
def resolvePlat (h : ℚ) (s : Body) (P : Platform) : Body :=
  if platHit h P s then
    { s with position := { s.position with y := platformTop P + h },
             velocity := { s.velocity with y := 0 },
             onGround := true }
  else s

/-- The whole resolution block (main.cpp lines 991-1013): clear `onGround`,
resolve against the ground, then fold the landing check over the non-ground
platforms in list order. -/
def resolveAll (h : ℚ) (plats : List Platform) (s : Body) : Body :=
  (plats.drop 1).foldl (resolvePlat h)
    (resolveGround h (platformTop plats.headI) { s with onGround := false })

/-- One entity's kinematic-solver portion of a frame (gravity, position
integration, resolution; main.cpp lines 977, 989-1013 for the player and the
identically-shaped clown / mummy / dog blocks).  The horizontal velocity has
already been set by the entity's controller. -/
def entityStep (h : ℚ) (plats : List Platform) (dt : ℚ) (s : Body) : Body :=
  let v : Vec3 := { s.velocity with y := s.velocity.y + gravity * dt }
  let p : Vec3 := ⟨s.position.x + v.x * dt, s.position.y + v.y * dt,
                   s.position.z + v.z * dt⟩
  resolveAll h plats { position := p, velocity := v, onGround := s.onGround }

/-- Cat ground-floor resolution (main.cpp lines 1180-1184): the plane `y = 0`,
not the ground platform's top; no `onGround` flag. -/
def catFloor (s : Body) : Body :=
  if s.position.y - 3/10 < 0 then
    { s with position := { s.position with y := 3/10 },
             velocity := { s.velocity with y := 0 } }
  else s

/-- Cat platform landing (main.cpp lines 1187-1200): same contact condition,
but no `onGround` flag is set (the `Cat` struct has none). -/
def catResolvePlat (s : Body) (P : Platform) : Body :=
  if platHit (3/10) P s then
    { s with position := { s.position with y := platformTop P + 3/10 },
             velocity := { s.velocity with y := 0 } }
  else s

/-- The cat's kinematic-solver portion of a frame (main.cpp lines 1176-1200):
gravity, floor at `y = 0`, platform landings.  In the source this runs before
the cat's position integration (line 1354). -/
def catSolve (plats : List Platform) (dt : ℚ) (s : Body) : Body :=
  let s1 : Body := { s with velocity := { s.velocity with y := s.velocity.y + gravity * dt } }
  (plats.drop 1).foldl catResolvePlat (catFloor s1)

/-- Player walk speed (source `const float moveSpeed = 5.0f`). -/
def moveSpeed : ℚ := 5

/-- Jump launch speed (source `const float jumpSpeed = 7.0f`). -/
def jumpSpeed : ℚ := 7

/-- Coyote-time window (source `const float coyoteTimeMax = 0.12f`). -/
def coyoteTimeMax : ℚ := 3/25

/-- Jump-buffer window (source `const float jumpBufferMax = 0.12f`). -/
def jumpBufferMax : ℚ := 3/25

/-- Result of the player's post-solver jump logic. -/
structure JumpOut where
  vy : ℚ
  onGround : Bool
  coyoteTimer : ℚ
  jumpBufferTimer : ℚ
  jumped : Bool
  deriving DecidableEq, Repr

/-- The player's post-solver jump logic of an unpaused frame (main.cpp lines
1015-1030): refresh or decay the coyote timer, decay the jump buffer, then
jump iff both are positive.  `jumped` records whether the jump branch ran
(there it emits the jump sound). -/
def jumpPhase (dt : ℚ) (ogr : Bool) (coyote buffer vy : ℚ) : JumpOut :=
  let c := if ogr then coyoteTimeMax else max 0 (coyote - dt)
  let b := max 0 (buffer - dt)
  if 0 < b ∧ 0 < c then ⟨jumpSpeed, false, 0, 0, true⟩
  else ⟨vy, ogr, c, b, false⟩

/-- LCG state transition of `RandomFloat` (main.cpp line 54):
`seed = seed * 1664525u + 1013904223u` on 32-bit unsigned arithmetic. -/
def rngNext (s : ℕ) : ℕ := (1664525 * s + 1013904223) % 2^32

/-- The 24-bit mantissa `(seed >> 8) & 0xFFFFFF` of the new state
(main.cpp line 55). -/
def rngMantissa (s : ℕ) : ℕ := rngNext s / 2^8 % 2^24

/-- The value returned by `RandomFloat` (main.cpp line 55): the mantissa
divided by `0xFFFFFF = 16777215`. -/
def rngFloat (s : ℕ) : ℚ := (rngMantissa s : ℚ) / 16777215

/-- Pre-step state of the chained-snap scenario: an entity of half-size 0.5 at
(-13, 1.29, -5), at rest, strictly below `top(platforms[9]) - 0.6 = 1.3`. -/
def c8Pre : Body := ⟨⟨-13, 129/100, -5⟩, ⟨0, 0, 0⟩, true⟩

/-- The state entering the landing check of `platforms[9]` inside
`entityStep (1/2) platforms (1/100) c8Pre`: gravity, integration, the ground
check and the checks of `platforms[1]`..`platforms[8]` have run. -/
def c8Mid : Body :=
  let v : Vec3 := { c8Pre.velocity with y := c8Pre.velocity.y + gravity * (1/100) }
  let p : Vec3 := ⟨c8Pre.position.x + v.x * (1/100), c8Pre.position.y + v.y * (1/100),
                   c8Pre.position.z + v.z * (1/100)⟩
  ((platforms.drop 1).take 8).foldl (resolvePlat (1/2))
    (resolveGround (1/2) (platformTop platforms.headI)
      { position := p, velocity := v, onGround := false })

/-- `glm::clamp x lo hi = min(max(x, lo), hi)`. -/
def clampQ (x lo hi : ℚ) : ℚ := min (max x lo) hi

/-- `glm::mix a b t = a + (b - a) * t` (linear interpolation). -/
def mixQ (a b t : ℚ) : ℚ := a + (b - a) * t

/-- The C math library calls made by the simulation, as rational functions.
`sqrt` models `std::sqrt`; `glm::length v` is modelled as `sqrt` applied to
the exact squared length of `v`.  Theorems that depend on a square root's
value carry hypotheses pinning `sqrt` at the points actually evaluated, and
concrete instances below are exact at those points and say so. -/
structure MathFns where
  sqrt : ℚ → ℚ
  cos : ℚ → ℚ
  sin : ℚ → ℚ
  atan2 : ℚ → ℚ → ℚ

/-- `glm::length` of a vec3: the square root of the exact squared length. -/
def lengthBy (m : MathFns) (v : Vec3) : ℚ := m.sqrt (v.x^2 + v.y^2 + v.z^2)

/-- `glm::length` of a vec2 with components `x`, `z`. -/
def length2By (m : MathFns) (x z : ℚ) : ℚ := m.sqrt (x^2 + z^2)

/-- `glm::normalize` of a vec3: division by its length. -/
def normalizeBy (m : MathFns) (v : Vec3) : Vec3 :=
  let len := lengthBy m v
  ⟨v.x / len, v.y / len, v.z / len⟩

/-- Closed form of the facing wrap loops (`while (diff > 3.14159) diff -=
6.28318; while (diff < -3.14159) diff += 6.28318`): when `x > 3.14159` the
first loop runs `⌈(x - 3.14159)/6.28318⌉` times and leaves a value in
(-3.14159, 3.14159], so the second loop does not run; symmetrically below. -/
def wrapAngle (x : ℚ) : ℚ :=
  if 314159/100000 < x then
    x - 628318/100000 * (⌈(x - 314159/100000) / (628318/100000)⌉ : ℚ)
  else if x < -314159/100000 then
    x + 628318/100000 * (⌈(-314159/100000 - x) / (628318/100000)⌉ : ℚ)
  else x

/-- The clown's half size (source `Enemy.halfSize = 0.45f`). -/
def clownHalfSize : ℚ := 9/20

/-- The `platformTop` used by the clown's platform scoring (main.cpp line
1042): it includes the clown's half size, `position.y + halfExtents.y +
clown.halfSize`. -/
def clownPlatTop (P : Platform) : ℚ := platformTop P + clownHalfSize

/-- The filter of the clown's platform scan (main.cpp line 1043). -/
def clownPlatPass (clownPos player : Vec3) (P : Platform) : Bool :=
  decide (clownPos.y + 2/5 < clownPlatTop P ∧ clownPlatTop P ≤ player.y + 3/10)

/-- The score of one platform in the clown's scan (main.cpp lines 1044-1048):
`distToPlayer + 0.4 * distToClown + |platformTop - player.y|` with the
planar distances measured from the platform's center. -/
def clownPlatScore (m : MathFns) (clownPos player : Vec3) (P : Platform) : ℚ :=
  length2By m (P.position.x - player.x) (P.position.z - player.z) +
  length2By m (P.position.x - clownPos.x) (P.position.z - clownPos.z) * (2/5) +
  |clownPlatTop P - player.y|

/-- The clown's aiTarget selection (main.cpp lines 1034-1055): start from the
player's position; when in aggro range (3D distance < 18) and the player is
more than 0.6 above, scan all platforms, keeping the first strict minimum of
the score below the 1e9 sentinel. -/
def clownAiTarget (m : MathFns) (plats : List Platform) (clownPos player : Vec3) : Vec3 :=
  let playerDistance := lengthBy m
    ⟨player.x - clownPos.x, player.y - clownPos.y, player.z - clownPos.z⟩
  if playerDistance < 18 ∧ clownPos.y + 3/5 < player.y then
    (plats.foldl (fun acc P =>
      if clownPlatPass clownPos player P then
        if clownPlatScore m clownPos player P < acc.1 then
          (clownPlatScore m clownPos player P,
           (⟨P.position.x, clownPlatTop P, P.position.z⟩ : Vec3))
        else acc
      else acc) ((1000000000 : ℚ), player)).2
  else player

/-- The aiTarget selection as claim C3 words it: `platformTop` is the bare
`center.y + halfExtents.y` (without the clown half-size) in the filter, the
score and the chosen target. -/
def clownAiTargetClaim (m : MathFns) (plats : List Platform) (clownPos player : Vec3) : Vec3 :=
  let playerDistance := lengthBy m
    ⟨player.x - clownPos.x, player.y - clownPos.y, player.z - clownPos.z⟩
  if playerDistance < 18 ∧ clownPos.y + 3/5 < player.y then
    (plats.foldl (fun acc P =>
      if decide (clownPos.y + 2/5 < platformTop P ∧ platformTop P ≤ player.y + 3/10) then
        let score := length2By m (P.position.x - player.x) (P.position.z - player.z) +
          length2By m (P.position.x - clownPos.x) (P.position.z - clownPos.z) * (2/5) +
          |platformTop P - player.y|
        if score < acc.1 then (score, (⟨P.position.x, platformTop P, P.position.z⟩ : Vec3))
        else acc
      else acc) ((1000000000 : ℚ), player)).2
  else player

/-- The first element of a list attaining the minimum of `f` (earlier
elements win ties), or `none` for the empty list. -/
def firstMinBy {α : Type} (f : α → ℚ) : List α → Option α
  | [] => none
  | a :: rest =>
    match firstMinBy f rest with
    | none => some a
    | some b => if f a ≤ f b then some a else some b

/-- The clown's jump-cooldown decay and predictive jump (main.cpp lines
1070-1082): when on the ground with the cooldown expired, the player more
than 0.2 above and the planar player distance below 6.5, set `v.y =
sqrt(2 * -gravity * clamp(gap + 0.4, 0.8, 2.4))` and the cooldown to 0.45. -/
def clownJump (m : MathFns) (hasWon : Bool) (player : Vec3) (dt : ℚ)
    (c : Body) (cooldown : ℚ) : Body × ℚ :=
  let cd := if 0 < cooldown then cooldown - dt else cooldown
  let gap := player.y - c.position.y
  let horizDist := length2By m (player.x - c.position.x) (player.z - c.position.z)
  let jumpVelocity := m.sqrt (2 * (-gravity) * clampQ (gap + 2/5) (4/5) (12/5))
  if hasWon = false ∧ c.onGround = true ∧ cd ≤ 0 ∧ 1/5 < gap ∧ horizDist < 13/2 then
    ({ c with velocity := { c.velocity with y := jumpVelocity } }, 9/20)
  else (c, cd)

/-- Behavior states shared by cats and dogs (source `enum class Behavior`). -/
inductive Behavior
  | idle
  | wandering
  | following
  deriving DecidableEq, Repr

/-- Cat idle-animation states (source `enum class IdleAnim`). -/
inductive IdleAnim
  | animNone
  | groom
  | loaf
  | roll
  | groomed
  deriving DecidableEq, Repr

/-- A cat (source `struct Cat`). -/
structure CatS where
  position : Vec3
  velocity : Vec3
  collected : Bool
  behavior : Behavior
  behaviorTimer : ℚ
  wanderTarget : Vec3
  idleAnim : IdleAnim
  idleAnimTimer : ℚ
  idleAnimPhase : ℚ
  groomTarget : ℤ
  rollHold : ℚ
  moveSpeed : ℚ
  turnSpeed : ℚ
  facing : ℚ
  walkCycle : ℚ
  seed : ℕ
  deriving DecidableEq, Repr

/-- A dog (source `struct Dog`). -/
structure DogS where
  position : Vec3
  collected : Bool
  bobOffset : ℚ
  velocity : Vec3
  onGround : Bool
  behavior : Behavior
  behaviorTimer : ℚ
  wanderTarget : Vec3
  facing : ℚ
  walkCycle : ℚ
  moveSpeed : ℚ
  turnSpeed : ℚ
  seed : ℕ
  deriving DecidableEq, Repr

/-- A pooled bomb (source `struct Bomb`). -/
structure BombS where
  position : Vec3
  velocity : Vec3
  timer : ℚ
  active : Bool
  deriving DecidableEq, Repr, Inhabited

/-- A fresh pooled bomb (the source's `Bomb` member initializers). -/
def bombDefault : BombS := ⟨⟨0, 0, 0⟩, ⟨0, 0, 0⟩, 0, false⟩

/-- The entity and timer state the frame loop owns. -/
structure GameState where
  player : Body
  clown : Body
  clownJumpCooldown : ℚ
  mummy : Body
  mummyThrowCooldown : ℚ
  cats : List CatS
  dogs : List DogS
  bombs : List BombS
  coyoteTimer : ℚ
  jumpBufferTimer : ℚ
  stamina : ℚ
  collectedCount : ℤ
  levelTwo : Bool
  hasWon : Bool
  deriving DecidableEq, Repr

/-- The entity-state effect of one paused frame: main.cpp lines 910-916 zero
the player's full velocity and the clown's and mummy's horizontal velocities,
and the entire simulation block (lines 947-1572, including every integration
and solver call) sits inside `if (!isPaused)` and is skipped.  Nothing else in
a paused frame touches entity or timer state (the camera and UI run after). -/
def pausedFrame (s : GameState) : GameState :=
  { s with player := { s.player with velocity := ⟨0, 0, 0⟩ },
           clown := { s.clown with velocity := ⟨0, s.clown.velocity.y, 0⟩ },
           mummy := { s.mummy with velocity := ⟨0, s.mummy.velocity.y, 0⟩ } }

/-- Input-direction processing (main.cpp lines 951-969): the summed key
direction is normalized when its length exceeds 0.001, and discarded entirely
once the game has been won. -/
def playerInputDir (m : MathFns) (raw : Vec3) (hasWon : Bool) : Vec3 :=
  let d := if 1/1000 < lengthBy m raw then normalizeBy m raw else raw
  if hasWon then ⟨0, 0, 0⟩ else d

/-- The player's horizontal velocity update (main.cpp lines 971-976):
exponential approach of the input-scaled target at rate `accel * dt`
(clamped to [0,1]). -/
def playerHorizVel (m : MathFns) (raw : Vec3) (hasWon sprint onGround : Bool)
    (vel : Vec3) (dt : ℚ) : Vec3 :=
  let dir := playerInputDir m raw hasWon
  let targetSpeed := moveSpeed * (if sprint then 8/5 else 1)
  let accel : ℚ := if onGround then 24 else 10
  ⟨mixQ vel.x (dir.x * targetSpeed) (clampQ (accel * dt) 0 1), vel.y,
   mixQ vel.z (dir.z * targetSpeed) (clampQ (accel * dt) 0 1)⟩

/-- The mummy's walk speed (source `mummy.speed = 2.2f`). -/
def mummySpeed : ℚ := 11/5

/-- The mummy's stand-off movement and solver portion of a level-2 frame
(main.cpp lines 1373-1409): velocity toward/away from the player scaled by
`clamp((dist2D - 8)/6, -1, 1)`, gravity, integration, resolution.  There is
no `hasWon` gate anywhere in this block. -/
def mummyMove (m : MathFns) (plats : List Platform) (player : Vec3) (dt : ℚ)
    (mm : Body) : Body :=
  let toPlayer : Vec3 := ⟨player.x - mm.position.x, player.y - mm.position.y,
                          player.z - mm.position.z⟩
  let moveDir0 : Vec3 := ⟨toPlayer.x, 0, toPlayer.z⟩
  let moveDir := if 1/1000 < lengthBy m moveDir0 then normalizeBy m moveDir0 else moveDir0
  let dist2D := length2By m toPlayer.x toPlayer.z
  let approach := clampQ ((dist2D - 8) / 6) (-1) 1
  let v : Vec3 := ⟨moveDir.x * mummySpeed * approach, mm.velocity.y + gravity * dt,
                   moveDir.z * mummySpeed * approach⟩
  let p : Vec3 := ⟨mm.position.x + v.x * dt, mm.position.y + v.y * dt,
                   mm.position.z + v.z * dt⟩
  resolveAll (9/20) plats { position := p, velocity := v, onGround := mm.onGround }

/-- Activation of a pooled bomb by the mummy's throw (main.cpp lines
1415-1424): fuse 3.5 s, spawn at mummy + (0, halfSize + 0.6, 0), velocity =
horizontal throw direction (normalized when its length exceeds 0.001) times
`7.5 + clamp(dist2D/16, 0, 1.2)`, with `v.y` then overwritten to 6.2. -/
def bombActivate (m : MathFns) (mummyPos player : Vec3) (dist2D : ℚ) (b : BombS) : BombS :=
  let pos : Vec3 := ⟨mummyPos.x, mummyPos.y + 9/20 + 3/5, mummyPos.z⟩
  let throwDir0 : Vec3 := ⟨player.x - pos.x, 0, player.z - pos.z⟩
  let throwDir := if 1/1000 < lengthBy m throwDir0 then normalizeBy m throwDir0 else throwDir0
  let speed := 15/2 + clampQ (dist2D / 16) 0 (6/5)
  { b with active := true, timer := 7/2, position := pos,
           velocity := ⟨throwDir.x * speed, 31/5, throwDir.z * speed⟩ }

/-- First-fit allocation over the bomb pool (main.cpp lines 1413-1427): the
first inactive bomb is transformed by `f` (activated); all others are kept. -/
def allocBomb (f : BombS → BombS) : List BombS → List BombS
  | [] => []
  | b :: rest => if b.active then b :: allocBomb f rest else f b :: rest

/-- The mummy's throw cadence (main.cpp lines 1411-1429): decay the cooldown;
when it is ≤ 0 and the planar player distance (`dist2D`, computed by the
caller at line 1381 before the mummy's move) is < 26, activate the first
inactive pooled bomb and reset the cooldown to 1.1; otherwise keep the
decayed cooldown. -/
def mummyThrow (m : MathFns) (mummyPos player : Vec3) (dist2D cooldown dt : ℚ)
    (bombs : List BombS) : ℚ × List BombS :=
  let c := cooldown - dt
  if c ≤ 0 ∧ dist2D < 26 then
    (11/10, allocBomb (bombActivate m mummyPos player dist2D) bombs)
  else (c, bombs)

/-- The number of active bombs in the pool. -/
def activeCount (bs : List BombS) : ℕ := bs.countP (·.active)

/-- The dog's collision half-size (source `const float dogRadius = 0.28f`). -/
def dogRadius : ℚ := 7/25

/-- Dog pickup detection (main.cpp lines 1466-1470): an uncollected dog
within 3D distance 1.15 of the player becomes collected and following. -/
def dogPickup (m : MathFns) (player : Vec3) (d1 : DogS) : DogS :=
  if d1.collected = false ∧ lengthBy m ⟨player.x - d1.position.x,
      player.y - d1.position.y, player.z - d1.position.z⟩ < 23/20 then
    { d1 with collected := true, behavior := Behavior.following, behaviorTimer := 0 }
  else d1

/-- A collected dog's wander-target refresh (main.cpp lines 1477-1482): when
the behavior timer expired or the player is beyond 4.8 m, pick a fresh target
near the player with the dog's LCG stream (one draw when far, three
otherwise). -/
def dogFollowRetarget (m : MathFns) (player : Vec3) (distToPlayer : ℚ) (d : DogS) : DogS :=
  let far := 24/5 < distToPlayer
  if d.behaviorTimer ≤ 0 ∨ far then
    let s1 := rngNext d.seed
    let angle := rngFloat d.seed * 628318/100000
    let radius := if far then (9/20 : ℚ) else 6/5 + rngFloat s1 * 3/2
    let s2 := if far then s1 else rngNext s1
    let timer := if far then (7/20 : ℚ) else 9/10 + rngFloat s2 * 7/5
    let s3 := if far then s2 else rngNext s2
    { d with wanderTarget := ⟨player.x + m.cos angle * radius, player.y,
                              player.z + m.sin angle * radius⟩,
             behaviorTimer := timer, seed := s3 }
  else d

/-- A collected dog's steering (main.cpp lines 1483-1494): move toward the
wander target (with a catch-up boost) unless within 0.25 m or the game has
been won. -/
def dogFollow (m : MathFns) (hasWon : Bool) (player : Vec3) (dt distToPlayer : ℚ)
    (d : DogS) : DogS × Vec3 :=
  let d2 := dogFollowRetarget m player distToPlayer d
  let toTarget : Vec3 := ⟨d2.wanderTarget.x - d2.position.x, 0,
                          d2.wanderTarget.z - d2.position.z⟩
  if 1/4 < length2By m toTarget.x toTarget.z ∧ hasWon = false then
    let dir := normalizeBy m toTarget
    let k := d2.moveSpeed * (1 + clampQ ((distToPlayer - 2) / (9/2)) 0 1 * 11/10)
    ({ d2 with facing := d2.facing +
        wrapAngle (m.atan2 dir.x dir.z - d2.facing) * d2.turnSpeed * dt },
     ⟨dir.x * k, dir.y * k, dir.z * k⟩)
  else (d2, ⟨0, 0, 0⟩)

/-- An uncollected dog's behavior choice (main.cpp lines 1496-1507): on timer
expiry, idle with probability 0.45, otherwise pick a wander target with the
dog's LCG stream. -/
def dogWanderRetarget (m : MathFns) (d : DogS) : DogS :=
  if d.behaviorTimer ≤ 0 then
    if rngFloat d.seed < 9/20 then
      { d with behavior := Behavior.idle,
               behaviorTimer := 4/5 + rngFloat (rngNext d.seed) * 8/5,
               seed := rngNext (rngNext d.seed) }
    else
      let s1 := rngNext d.seed
      let angle := rngFloat s1 * 628318/100000
      let s2 := rngNext s1
      let dist := 6/5 + rngFloat s2 * 5/2
      let s3 := rngNext s2
      { d with behavior := Behavior.wandering,
               wanderTarget := ⟨d.position.x + m.cos angle * dist, d.position.y,
                                d.position.z + m.sin angle * dist⟩,
               behaviorTimer := 1 + rngFloat s3 * 2,
               seed := rngNext s3 }
  else d

/-- An uncollected dog's wandering movement (main.cpp lines 1509-1521):
half-speed steering toward the wander target while beyond 0.35 m. -/
def dogWander (m : MathFns) (dt : ℚ) (d : DogS) : DogS × Vec3 :=
  let d2 := dogWanderRetarget m d
  if d2.behavior = Behavior.wandering then
    let toTarget : Vec3 := ⟨d2.wanderTarget.x - d2.position.x, 0,
                            d2.wanderTarget.z - d2.position.z⟩
    if 7/20 < length2By m toTarget.x toTarget.z then
      let dir := normalizeBy m toTarget
      let k := d2.moveSpeed * (1/2)
      ({ d2 with facing := d2.facing +
          wrapAngle (m.atan2 dir.x dir.z - d2.facing) * d2.turnSpeed * dt },
       ⟨dir.x * k, dir.y * k, dir.z * k⟩)
    else (d2, ⟨0, 0, 0⟩)
  else (d2, ⟨0, 0, 0⟩)

/-- The per-dog behavior portion of a frame (main.cpp lines 1463-1522): timer
decay, pickup detection, follow/wander target selection (with the per-dog LCG
stream) and the desired velocity; returns the updated dog and that desired
velocity.  The only `hasWon` gate is on the collected dog's steering. -/
def dogDesired (m : MathFns) (hasWon : Bool) (player : Vec3) (dt : ℚ)
    (d0 : DogS) : DogS × Vec3 :=
  let d := dogPickup m player { d0 with behaviorTimer := d0.behaviorTimer - dt }
  let distToPlayer := length2By m (player.x - d.position.x) (player.z - d.position.z)
  if d.collected then dogFollow m hasWon player dt distToPlayer d
  else dogWander m dt d

/-- One dog's full frame update (main.cpp lines 1462-1554): behavior and
desired velocity, gravity, horizontal acceleration toward the desired
velocity at rate `(collected ? 16 : 10) * dt`, integration, ground and
platform resolution, walk cycle. -/
def dogStep (m : MathFns) (hasWon : Bool) (plats : List Platform)
    (player : Vec3) (dt : ℚ) (d0 : DogS) : DogS :=
  let dd := dogDesired m hasWon player dt d0
  let d := dd.1
  let desired := dd.2
  let vy := d.velocity.y + gravity * dt
  let a := clampQ ((if d.collected then (16:ℚ) else 10) * dt) 0 1
  let vx := mixQ d.velocity.x desired.x a
  let vz := mixQ d.velocity.z desired.z a
  let p : Vec3 := ⟨d.position.x + vx * dt, d.position.y + vy * dt, d.position.z + vz * dt⟩
  let body := resolveAll dogRadius plats
    { position := p, velocity := ⟨vx, vy, vz⟩, onGround := d.onGround }
  { d with position := body.position, velocity := body.velocity, onGround := body.onGround,
           walkCycle := d.walkCycle + length2By m body.velocity.x body.velocity.z * dt * 16/5 }

/-- Pinned square roots for the C3 scenario (all perfect rational squares). -/
def c3Fns : MathFns :=
  ⟨fun q =>
    if q = 289/400 then 17/20
    else if q = 10201/1600 then 101/40
    else if q = 67081/1600 then 259/40
    else 0,
   fun _ => 0, fun _ => 0, fun _ _ => 0⟩

/-- The clown position of the C3 scenario: (0.475, 4.2, 9). -/
def c3Clown : Vec3 := ⟨19/40, 21/5, 9⟩

/-- The player position of the C3 scenario: (0.475, 5.05, 9). -/
def c3Player : Vec3 := ⟨19/40, 101/20, 9⟩

/-- Pinned square root for the C4 scenario. -/
def c4Fns : MathFns := ⟨fun q => if q = 144 then 12 else 0,
  fun _ => 0, fun _ => 0, fun _ _ => 0⟩

/-- Pinned square root for the C6 throw scenario. -/
def c6Fns : MathFns := ⟨fun q => if q = 100 then 10 else 0,
  fun _ => 0, fun _ => 0, fun _ _ => 0⟩

/-- Pinned square root for the C6 short-throw counterexample. -/
def c6xFns : MathFns := ⟨fun q => if q = 1/4000000 then 1/2000 else 0,
  fun _ => 0, fun _ => 0, fun _ _ => 0⟩

/-- Pinned square root for the C7 scenario. -/
def c7Fns : MathFns := ⟨fun q => if q = 9 then 3 else 0,
  fun _ => 0, fun _ => 0, fun _ _ => 0⟩

/-- The paused game state of the C5 counterexample: the player is moving and
falling, the clown is airborne at y = 3 falling at -5. -/
def c5State : GameState where
  player := ⟨⟨0, 1, 0⟩, ⟨2, -3, 1⟩, false⟩
  clown := ⟨⟨4, 3, -4⟩, ⟨0, -5, 0⟩, false⟩
  clownJumpCooldown := 0
  mummy := ⟨⟨-2, 9/20, -10⟩, ⟨0, 0, 0⟩, true⟩
  mummyThrowCooldown := 7/5
  cats := []
  dogs := []
  bombs := [bombDefault]
  coyoteTimer := 0
  jumpBufferTimer := 0
  stamina := 1
  collectedCount := 0
  levelTwo := false
  hasWon := false

/-- After the ground resolution the entity sits on or above the ground. -/
lemma resolveGround_bound (h gtop : ℚ) (s : Body) :
    gtop ≤ (resolveGround h gtop s).position.y - h := by
  unfold resolveGround
  split
  · simp
  · next hc => simpa using le_of_not_lt hc

/-- A platform landing never moves the entity below `platformTop P`. -/
lemma resolvePlat_bound (h gtop : ℚ) (s : Body) (P : Platform)
    (hs : gtop ≤ s.position.y - h) (hP : gtop ≤ platformTop P) :
    gtop ≤ (resolvePlat h s P).position.y - h := by
  unfold resolvePlat
  split
  · simpa using hP
  · exact hs

/-- Folding the landing loop preserves the lower bound on `p.y - h` as long as
every platform top in the list is at least that bound. -/
lemma foldl_resolvePlat_bound (h gtop : ℚ) (L : List Platform) (s : Body)
    (hs : gtop ≤ s.position.y - h) (hL : ∀ P ∈ L, gtop ≤ platformTop P) :
    gtop ≤ ((L.foldl (resolvePlat h) s)).position.y - h := by
  induction L generalizing s with
  | nil => simpa using hs
  | cons P rest ih =>
      simp only [List.foldl_cons]
      exact ih _ (resolvePlat_bound h gtop s P hs (hL P (List.mem_cons_self P rest)))
        (fun Q hQ => hL Q (List.mem_cons_of_mem P hQ))

/-- Every non-ground platform of the concrete world has its top above the
ground top. -/
lemma platforms_tops_above_ground :
    ∀ P ∈ platforms.drop 1, groundTop ≤ platformTop P := by
  intro P hP
  simp only [platforms, List.drop, List.mem_cons, List.not_mem_nil, or_false] at hP
  rcases hP with rfl | rfl | rfl | rfl | rfl | rfl | rfl | rfl | rfl | rfl | rfl | rfl | rfl <;>
    norm_num [platformTop, groundTop, platforms]

/-- After the cat floor check the cat sits on or above the `y = 0` plane. -/
lemma catFloor_bound (s : Body) : 0 ≤ (catFloor s).position.y - 3/10 := by
  unfold catFloor
  split
  · simp
  · next hc => simpa using le_of_not_lt hc

/-- The cat landing loop preserves the lower bound on `p.y - 0.3` as long as
every platform top in the list is at least that bound. -/
lemma foldl_catResolvePlat_bound (gtop : ℚ) (L : List Platform) (s : Body)
    (hs : gtop ≤ s.position.y - 3/10) (hL : ∀ P ∈ L, gtop ≤ platformTop P) :
    gtop ≤ ((L.foldl catResolvePlat s)).position.y - 3/10 := by
  induction L generalizing s with
  | nil => simpa using hs
  | cons P rest ih =>
      simp only [List.foldl_cons]
      refine ih _ ?_ (fun Q hQ => hL Q (List.mem_cons_of_mem P hQ))
      unfold catResolvePlat
      split
      · simpa using hL P (List.mem_cons_self P rest)
      · exact hs

/-- C1: For every entity (player h=0.5, clown and mummy h=0.45, dog h=0.28,
cat radius 0.3), from every state and for any frame step with dt in [0, 0.1],
after that entity's kinematic-solver portion of the frame has run the entity's
position satisfies `p.y - h ≥ groundTop`, where `groundTop = -0.5` is the top
of the first platform in the world list. -/
theorem c1_ground_containment (dt : ℚ) (s : Body)
    (hdt : 0 ≤ dt ∧ dt ≤ 1/10) :
    groundTop ≤ (entityStep (1/2) platforms dt s).position.y - 1/2 ∧
    groundTop ≤ (entityStep (9/20) platforms dt s).position.y - 9/20 ∧
    groundTop ≤ (entityStep (7/25) platforms dt s).position.y - 7/25 ∧
    groundTop ≤ (catSolve platforms dt s).position.y - 3/10 := by
  refine ⟨?_, ?_, ?_, ?_⟩
  · exact foldl_resolvePlat_bound _ _ _ _ (resolveGround_bound _ _ _)
      (by simpa [groundTop] using platforms_tops_above_ground)
  · exact foldl_resolvePlat_bound _ _ _ _ (resolveGround_bound _ _ _)
      (by simpa [groundTop] using platforms_tops_above_ground)
  · exact foldl_resolvePlat_bound _ _ _ _ (resolveGround_bound _ _ _)
      (by simpa [groundTop] using platforms_tops_above_ground)
  · exact foldl_catResolvePlat_bound _ _ _
      (le_trans (by norm_num [groundTop, platformTop, platforms]) (catFloor_bound _))
      platforms_tops_above_ground

/-- C1 witness: the invariant instantiated at dt = 1/60 and a concrete falling
body. -/
theorem c1_witness :
    ((0:ℚ) ≤ 1/60 ∧ (1/60:ℚ) ≤ 1/10) ∧
    (groundTop ≤ (entityStep (1/2) platforms (1/60) ⟨⟨0, 5, 0⟩, ⟨0, 0, 0⟩, false⟩).position.y - 1/2 ∧
     groundTop ≤ (entityStep (9/20) platforms (1/60) ⟨⟨0, 5, 0⟩, ⟨0, 0, 0⟩, false⟩).position.y - 9/20 ∧
     groundTop ≤ (entityStep (7/25) platforms (1/60) ⟨⟨0, 5, 0⟩, ⟨0, 0, 0⟩, false⟩).position.y - 7/25 ∧
     groundTop ≤ (catSolve platforms (1/60) ⟨⟨0, 5, 0⟩, ⟨0, 0, 0⟩, false⟩).position.y - 3/10) :=
  ⟨by norm_num, c1_ground_containment (1/60) ⟨⟨0, 5, 0⟩, ⟨0, 0, 0⟩, false⟩ (by norm_num)⟩

/-- C2: In an unpaused frame a jump fires iff the decayed jump buffer and the
refreshed/decayed coyote timer are both positive; when it fires, `v.y = 7`,
`onGround` is cleared and both timers are zeroed; when it does not fire `v.y`
is untouched; at a decayed coyote timer of exactly 0 no jump fires. -/
theorem c2_jump_buffer_coyote (dt : ℚ) (ogr : Bool) (coyote buffer vy : ℚ) :
    ((jumpPhase dt ogr coyote buffer vy).jumped = true ↔
      0 < max 0 (buffer - dt) ∧ 0 < (if ogr then coyoteTimeMax else max 0 (coyote - dt))) ∧
    ((jumpPhase dt ogr coyote buffer vy).jumped = true →
      (jumpPhase dt ogr coyote buffer vy).vy = jumpSpeed ∧
      (jumpPhase dt ogr coyote buffer vy).onGround = false ∧
      (jumpPhase dt ogr coyote buffer vy).coyoteTimer = 0 ∧
      (jumpPhase dt ogr coyote buffer vy).jumpBufferTimer = 0) ∧
    ((jumpPhase dt ogr coyote buffer vy).jumped = false →
      (jumpPhase dt ogr coyote buffer vy).vy = vy) ∧
    ((if ogr then coyoteTimeMax else max 0 (coyote - dt)) = 0 →
      (jumpPhase dt ogr coyote buffer vy).jumped = false) := by
  unfold jumpPhase
  by_cases hb : 0 < max 0 (buffer - dt) ∧
      0 < (if ogr then coyoteTimeMax else max 0 (coyote - dt))
  · simp only [if_pos hb]
    refine ⟨by simp [hb], fun _ => by simp, fun h => absurd h (by simp),
      fun hc0 => absurd hb.2 (by rw [hc0]; exact lt_irrefl 0)⟩
  · simp only [if_neg hb]
    refine ⟨iff_of_false (by simp) hb, fun h => absurd h (by simp), fun _ => by simp,
      fun _ => by simp⟩

/-- C2 witness: a buffered jump fires one frame after walking off a ledge
(coyote time), at dt = 1/60. -/
theorem c2_witness :
    ((jumpPhase (1/60) false (1/10) (1/10) 0).jumped = true ↔
      0 < max 0 ((1/10:ℚ) - 1/60) ∧
      0 < (if false then coyoteTimeMax else max 0 ((1/10:ℚ) - 1/60))) ∧
    ((jumpPhase (1/60) false (1/10) (1/10) 0).jumped = true →
      (jumpPhase (1/60) false (1/10) (1/10) 0).vy = jumpSpeed ∧
      (jumpPhase (1/60) false (1/10) (1/10) 0).onGround = false ∧
      (jumpPhase (1/60) false (1/10) (1/10) 0).coyoteTimer = 0 ∧
      (jumpPhase (1/60) false (1/10) (1/10) 0).jumpBufferTimer = 0) ∧
    ((jumpPhase (1/60) false (1/10) (1/10) 0).jumped = false →
      (jumpPhase (1/60) false (1/10) (1/10) 0).vy = 0) ∧
    ((if false then coyoteTimeMax else max 0 ((1/10:ℚ) - 1/60)) = 0 →
      (jumpPhase (1/60) false (1/10) (1/10) 0).jumped = false) :=
  c2_jump_buffer_coyote (1/60) false (1/10) (1/10) 0

/-- C9 counterexample: from seed 1165839077 the LCG's next state is
0xFFFFFF00, whose bits 8..31 are all ones, so `RandomFloat` returns
16777215 / 16777215 = 1 — not strictly less than 1. -/
theorem c9_counterexample :
    rngMantissa 1165839077 = 16777215 ∧ rngFloat 1165839077 = 1 ∧
    ¬ rngFloat 1165839077 < 1 := by
  have h : rngMantissa 1165839077 = 16777215 := by decide
  refine ⟨h, ?_, ?_⟩ <;> simp [rngFloat, h]

/-- C9 amended: every call advances the state by x ← 1664525·x + 1013904223
(mod 2^32), takes the 24-bit mantissa from bits 8..31 of the new state, and
returns that mantissa divided by 0xFFFFFF — a value in the closed interval
[0, 1], equal to 1 exactly when the mantissa is all ones. -/
theorem c9_rng_range (s : ℕ) :
    rngNext s = (1664525 * s + 1013904223) % 2^32 ∧
    rngFloat s = (rngMantissa s : ℚ) / 16777215 ∧
    0 ≤ rngFloat s ∧ rngFloat s ≤ 1 ∧
    (rngFloat s = 1 ↔ rngMantissa s = 16777215) := by
  have hm : rngMantissa s ≤ 16777215 := by
    unfold rngMantissa
    have := Nat.mod_lt (rngNext s / 2^8) (y := 2^24) (by norm_num)
    omega
  refine ⟨rfl, rfl, ?_, ?_, ?_⟩
  · unfold rngFloat; positivity
  · unfold rngFloat
    rw [div_le_one (by norm_num)]
    exact_mod_cast hm
  · unfold rngFloat
    rw [div_eq_iff (by norm_num : (16777215:ℚ) ≠ 0), one_mul]
    exact_mod_cast Iff.rfl

/-- A landing check on a platform the entity is strictly more than 0.6 below
leaves the state unchanged. -/
lemma resolvePlat_skip (h : ℚ) (s : Body) (P : Platform)
    (hy : s.position.y < platformTop P - 3/5) :
    resolvePlat h s P = s := by
  unfold resolvePlat
  rw [if_neg]
  intro hhit
  exact absurd hhit.2.2.2.2 (by linarith)

/-- C8 counterexample: the entity starts at rest at y = 1.29, strictly below
`top(platforms[9]) - 0.6 = 1.3`, yet the solver step with dt = 0.01 snaps it
onto `platforms[9]` (y becomes 2.4): the ground/earlier-platform passes first
snap it onto `platforms[8]` (top 1.3), lifting it above the 0.6 window of
`platforms[9]` (top 1.9), whose check then fires. -/
theorem c8_counterexample :
    c8Pre.position.y < platformTop platforms[9]! - 3/5 ∧
    entityStep (1/2) platforms (1/100) c8Pre =
      ((platforms.drop 1).drop 8).foldl (resolvePlat (1/2)) c8Mid ∧
    platHit (1/2) platforms[9]! c8Mid ∧
    (entityStep (1/2) platforms (1/100) c8Pre).position =
      ⟨-13, platformTop platforms[9]! + 1/2, -5⟩ ∧
    (entityStep (1/2) platforms (1/100) c8Pre).onGround = true := by
  refine ⟨by norm_num [c8Pre, platforms, platformTop], ?_, ?_, ?_, ?_⟩
  · show resolveAll _ _ _ = _
    unfold resolveAll c8Mid
    conv_lhs => rw [← List.take_append_drop 8 (platforms.drop 1)]
    rw [List.foldl_append]
  · norm_num [c8Mid, c8Pre, platforms, platformTop, gravity, platHit,
      resolveGround, resolvePlat]
  · norm_num [entityStep, resolveAll, c8Pre, platforms, platformTop, gravity,
      platHit, resolveGround, resolvePlat]
  · norm_num [entityStep, resolveAll, c8Pre, platforms, platformTop, gravity,
      platHit, resolveGround, resolvePlat]

/-- C8 amended: a platform's landing check never snaps an entity whose `p.y`
is strictly below `top - 0.6` at the moment that check runs; an entity that
was below the window before the step can still be captured when the ground or
an earlier-listed platform raises it into the window first (see the
counterexample). -/
theorem c8_one_way_window (h : ℚ) (s : Body) (P : Platform)
    (hy : s.position.y < platformTop P - 3/5) :
    resolvePlat h s P = s :=
  resolvePlat_skip h s P hy

/-- C8 witness: an entity at y = 0 is left untouched by the check of
`platforms[1]` (top 1.3). -/
theorem c8_witness :
    (⟨⟨4, 0, 0⟩, ⟨0, -1, 0⟩, false⟩ : Body).position.y <
      platformTop platforms[1]! - 3/5 ∧
    resolvePlat (1/2) ⟨⟨4, 0, 0⟩, ⟨0, -1, 0⟩, false⟩ platforms[1]! =
      ⟨⟨4, 0, 0⟩, ⟨0, -1, 0⟩, false⟩ :=
  ⟨by norm_num [platforms, platformTop],
   c8_one_way_window (1/2) _ _ (by norm_num [platforms, platformTop])⟩

/-- The cat landing loop leaves a cat untouched when it sits strictly more
than 0.6 below every platform top in the list. -/
lemma foldl_catResolvePlat_skip (L : List Platform) (s : Body)
    (hL : ∀ P ∈ L, s.position.y < platformTop P - 3/5) :
    L.foldl catResolvePlat s = s := by
  induction L with
  | nil => rfl
  | cons P rest ih =>
      have hP : catResolvePlat s P = s := by
        unfold catResolvePlat
        rw [if_neg]
        intro hhit
        exact absurd hhit.2.2.2.2 (by linarith [hL P (List.mem_cons_self P rest)])
      simp only [List.foldl_cons, hP]
      exact ih (fun Q hQ => hL Q (List.mem_cons_of_mem P hQ))

/-- C10: the cat ground-floor resolution uses the plane y = 0, not the ground
platform's top: whenever `p.y - 0.3 < 0` at the check, `p.y` is set to 0.3 and
`v.y` to 0; across the whole cat solver portion (which runs before the cat's
position integration) such a cat ends at `p.y = 0.3`, which is 0.5 above
`groundTop + catRadius = -0.2`, the height the generic ground snap would
produce for h = 0.3. -/
theorem c10_cat_floor_plane :
    (∀ s : Body, s.position.y - 3/10 < 0 →
      (catFloor s).position.y = 3/10 ∧ (catFloor s).velocity.y = 0) ∧
    (∀ s : Body, ∀ dt : ℚ, s.position.y - 3/10 < 0 →
      (catSolve platforms dt s).position.y = 3/10) ∧
    ((3:ℚ)/10 = (groundTop + 3/10) + 1/2) ∧
    (∀ s : Body, s.position.y - 3/10 < groundTop →
      (resolveGround (3/10) groundTop s).position.y = groundTop + 3/10 ∧
      groundTop + 3/10 = -1/5) := by
  refine ⟨?_, ?_, ?_, ?_⟩
  · intro s hs
    unfold catFloor
    rw [if_pos hs]
    exact ⟨rfl, rfl⟩
  · intro s dt hs
    unfold catSolve
    set s1 : Body :=
      { s with velocity := { s.velocity with y := s.velocity.y + gravity * dt } } with hs1
    have hfloor : (catFloor s1).position.y = 3/10 ∧ (catFloor s1).velocity.y = 0 := by
      unfold catFloor
      rw [if_pos (by simpa [hs1] using hs)]
      exact ⟨rfl, rfl⟩
    rw [foldl_catResolvePlat_skip]
    · exact hfloor.1
    · intro P hP
      rw [hfloor.1]
      have := platforms_tops_above_ground P hP
      have h2 : (13:ℚ)/10 ≤ platformTop P := by
        revert hP
        intro hP
        simp only [platforms, List.drop, List.mem_cons, List.not_mem_nil, or_false] at hP
        rcases hP with rfl | rfl | rfl | rfl | rfl | rfl | rfl | rfl | rfl | rfl | rfl | rfl | rfl <;>
          norm_num [platformTop]
      linarith
  · norm_num [groundTop, platformTop, platforms]
  · intro s hs
    unfold resolveGround
    rw [if_pos hs]
    norm_num [groundTop, platformTop, platforms]

/-- C10 witness: a cat fallen to y = 0.1 is snapped to 0.3 by the floor check
and by the whole solver portion, while the generic ground snap at h = 0.3
would put it at -0.2. -/
theorem c10_witness :
    ((⟨⟨0, 1/10, 0⟩, ⟨0, -1, 0⟩, false⟩ : Body).position.y - 3/10 < 0 ∧
      (catFloor ⟨⟨0, 1/10, 0⟩, ⟨0, -1, 0⟩, false⟩).position.y = 3/10 ∧
      (catFloor ⟨⟨0, 1/10, 0⟩, ⟨0, -1, 0⟩, false⟩).velocity.y = 0) ∧
    (catSolve platforms (1/60) ⟨⟨0, 1/10, 0⟩, ⟨0, -1, 0⟩, false⟩).position.y = 3/10 ∧
    ((⟨⟨0, -1, 0⟩, ⟨0, -1, 0⟩, false⟩ : Body).position.y - 3/10 < groundTop ∧
      (resolveGround (3/10) groundTop ⟨⟨0, -1, 0⟩, ⟨0, -1, 0⟩, false⟩).position.y =
        groundTop + 3/10) := by
  refine ⟨⟨by norm_num, (c10_cat_floor_plane.1 _ (by norm_num))⟩, ?_, ?_, ?_⟩
  · exact c10_cat_floor_plane.2.1 _ (1/60) (by norm_num)
  · norm_num [groundTop, platformTop, platforms]
  · exact (c10_cat_floor_plane.2.2.2 _
      (by norm_num [groundTop, platformTop, platforms])).1

/-- C5 counterexample: a paused frame is not state-preserving and calls no
integration.  At `c5State` the pause zeroes the player's falling velocity
(⟨2,-3,1⟩ becomes ⟨0,0,0⟩), and although the clown keeps `v.y = -5`, its
position is untouched — had integration run with dt = 1/60, `clown.y` would
be 3 - 5/60, not 3. -/
theorem c5_counterexample :
    (pausedFrame c5State).player.velocity ≠ c5State.player.velocity ∧
    (pausedFrame c5State).clown.velocity.y = -5 ∧
    (pausedFrame c5State).clown.position.y = 3 ∧
    (3 : ℚ) ≠ 3 + (-5) * (1/60) := by
  refine ⟨?_, rfl, rfl, by norm_num⟩
  intro h
  rw [show (pausedFrame c5State).player.velocity = ⟨0, 0, 0⟩ from rfl] at h
  have := congrArg Vec3.x h
  norm_num [c5State] at this

/-- C5 amended: a paused frame zeroes the player's velocity and the clown's
and mummy's horizontal velocities and skips the whole simulation: every
position, the cat/dog/bomb collections and all timers are untouched, the
clown's and mummy's vertical velocities survive, and a second paused frame
changes nothing further.  Unpausing therefore resumes from unchanged
positions but with those velocities lost, not from numerically unchanged
entity state. -/
theorem c5_pause_freeze (s : GameState) :
    (pausedFrame s).player.position = s.player.position ∧
    (pausedFrame s).clown.position = s.clown.position ∧
    (pausedFrame s).mummy.position = s.mummy.position ∧
    (pausedFrame s).cats = s.cats ∧
    (pausedFrame s).dogs = s.dogs ∧
    (pausedFrame s).bombs = s.bombs ∧
    (pausedFrame s).coyoteTimer = s.coyoteTimer ∧
    (pausedFrame s).jumpBufferTimer = s.jumpBufferTimer ∧
    (pausedFrame s).stamina = s.stamina ∧
    (pausedFrame s).clownJumpCooldown = s.clownJumpCooldown ∧
    (pausedFrame s).mummyThrowCooldown = s.mummyThrowCooldown ∧
    (pausedFrame s).player.velocity = ⟨0, 0, 0⟩ ∧
    (pausedFrame s).clown.velocity = ⟨0, s.clown.velocity.y, 0⟩ ∧
    (pausedFrame s).mummy.velocity = ⟨0, s.mummy.velocity.y, 0⟩ ∧
    pausedFrame (pausedFrame s) = pausedFrame s := by
  refine ⟨rfl, rfl, rfl, rfl, rfl, rfl, rfl, rfl, rfl, rfl, rfl, rfl, rfl, rfl, rfl⟩

/-- C7: on a level-1 frame (the win flag cannot be set in level 1) where the
clown is on the ground with its jump cooldown expired, the player more than
0.2 above and the planar player distance below 6.5, the clown's vertical
velocity becomes `sqrt(2·18·clamp(gap + 0.4, 0.8, 2.4))` and the cooldown
0.45; for a gap of exactly 2 the argument is 86.4, and the nonnegative real
square root of 86.4 lies strictly between 9.295 and 9.296. -/
theorem c7_clown_predictive_jump (m : MathFns) (player : Vec3) (dt : ℚ)
    (c : Body) (cooldown : ℚ)
    (hog : c.onGround = true)
    (hcd : (if 0 < cooldown then cooldown - dt else cooldown) ≤ 0)
    (hgap : 1/5 < player.y - c.position.y)
    (hhd : length2By m (player.x - c.position.x) (player.z - c.position.z) < 13/2) :
    (clownJump m false player dt c cooldown).1.velocity.y =
      m.sqrt (2 * 18 * clampQ ((player.y - c.position.y) + 2/5) (4/5) (12/5)) ∧
    (clownJump m false player dt c cooldown).2 = 9/20 ∧
    (player.y - c.position.y = 2 →
      (clownJump m false player dt c cooldown).1.velocity.y = m.sqrt (432/5)) ∧
    (∀ x : ℝ, 0 ≤ x → x^2 = 432/5 → 9295/1000 < x ∧ x < 9296/1000) := by
  have hcond : (false : Bool) = false ∧ c.onGround = true ∧
      (if 0 < cooldown then cooldown - dt else cooldown) ≤ 0 ∧
      1/5 < player.y - c.position.y ∧
      length2By m (player.x - c.position.x) (player.z - c.position.z) < 13/2 :=
    ⟨rfl, hog, hcd, hgap, hhd⟩
  unfold clownJump
  rw [if_pos hcond]
  refine ⟨by norm_num [gravity], rfl, ?_, ?_⟩
  · intro h2
    rw [h2]
    norm_num [gravity, clampQ]
  · intro x hx0 hx2
    constructor <;> nlinarith

/-- C7 witness: the clown at the origin on the ground with expired cooldown,
the player at (0, 2, 3) — gap 2, planar distance 3 — at dt = 1/60.  The
pinned square-root point 9 is a perfect square. -/
theorem c7_witness :
    ((⟨⟨0, 0, 0⟩, ⟨0, 0, 0⟩, true⟩ : Body).onGround = true ∧
     (if (0:ℚ) < 0 then (0:ℚ) - 1/60 else 0) ≤ 0 ∧
     (1:ℚ)/5 < (⟨0, 2, 3⟩ : Vec3).y - (⟨⟨0, 0, 0⟩, ⟨0, 0, 0⟩, true⟩ : Body).position.y ∧
     length2By c7Fns ((⟨0, 2, 3⟩ : Vec3).x - 0) ((⟨0, 2, 3⟩ : Vec3).z - 0) < 13/2 ∧
     c7Fns.sqrt 9 * c7Fns.sqrt 9 = 9) ∧
    ((clownJump c7Fns false ⟨0, 2, 3⟩ (1/60) ⟨⟨0, 0, 0⟩, ⟨0, 0, 0⟩, true⟩ 0).1.velocity.y =
      c7Fns.sqrt (2 * 18 * clampQ (((⟨0, 2, 3⟩ : Vec3).y -
        (⟨⟨0, 0, 0⟩, ⟨0, 0, 0⟩, true⟩ : Body).position.y) + 2/5) (4/5) (12/5)) ∧
     (clownJump c7Fns false ⟨0, 2, 3⟩ (1/60) ⟨⟨0, 0, 0⟩, ⟨0, 0, 0⟩, true⟩ 0).2 = 9/20) := by
  have h := c7_clown_predictive_jump c7Fns ⟨0, 2, 3⟩ (1/60) ⟨⟨0, 0, 0⟩, ⟨0, 0, 0⟩, true⟩ 0
    rfl (by norm_num) (by norm_num) (by norm_num [length2By, c7Fns])
  exact ⟨⟨rfl, by norm_num, by norm_num, by norm_num [length2By, c7Fns], by norm_num [c7Fns]⟩,
    h.1, h.2.1⟩

/-- Neither resolution step touches the horizontal velocity. -/
lemma foldl_resolvePlat_vel (h : ℚ) (L : List Platform) (s : Body) :
    (L.foldl (resolvePlat h) s).velocity.x = s.velocity.x ∧
    (L.foldl (resolvePlat h) s).velocity.z = s.velocity.z := by
  induction L generalizing s with
  | nil => exact ⟨rfl, rfl⟩
  | cons P rest ih =>
      simp only [List.foldl_cons]
      refine ⟨((ih _).1).trans ?_, ((ih _).2).trans ?_⟩ <;>
        (unfold resolvePlat; split <;> rfl)

/-- The whole resolution block preserves the horizontal velocity. -/
lemma resolveAll_vel (h : ℚ) (plats : List Platform) (b : Body) :
    (resolveAll h plats b).velocity.x = b.velocity.x ∧
    (resolveAll h plats b).velocity.z = b.velocity.z := by
  unfold resolveAll
  refine ⟨((foldl_resolvePlat_vel h _ _).1).trans ?_, ((foldl_resolvePlat_vel h _ _).2).trans ?_⟩ <;>
    (unfold resolveGround; split <;> rfl)

/-- Pickup never touches a dog's velocity or position, and a collected dog
stays collected. -/
lemma dogPickup_state (m : MathFns) (player : Vec3) (d1 : DogS) :
    (dogPickup m player d1).velocity = d1.velocity ∧
    (dogPickup m player d1).position = d1.position ∧
    (d1.collected = true → (dogPickup m player d1).collected = true) := by
  unfold dogPickup
  split_ifs
  · exact ⟨rfl, rfl, fun _ => rfl⟩
  · exact ⟨rfl, rfl, fun h => h⟩

/-- The follow retarget only touches the wander target, timer and seed. -/
lemma dogFollowRetarget_state (m : MathFns) (player : Vec3) (dp : ℚ) (d : DogS) :
    (dogFollowRetarget m player dp d).velocity = d.velocity ∧
    (dogFollowRetarget m player dp d).position = d.position ∧
    (dogFollowRetarget m player dp d).collected = d.collected := by
  unfold dogFollowRetarget
  dsimp only
  split_ifs <;> exact ⟨rfl, rfl, rfl⟩

/-- The follow steering only touches the facing beyond the retarget. -/
lemma dogFollow_state (m : MathFns) (hw : Bool) (player : Vec3) (dt dp : ℚ) (d : DogS) :
    (dogFollow m hw player dt dp d).1.velocity = d.velocity ∧
    (dogFollow m hw player dt dp d).1.position = d.position ∧
    (dogFollow m hw player dt dp d).1.collected = d.collected := by
  unfold dogFollow
  dsimp only
  split_ifs <;>
    exact ⟨(dogFollowRetarget_state m player dp d).1,
      (dogFollowRetarget_state m player dp d).2.1,
      (dogFollowRetarget_state m player dp d).2.2⟩

/-- The wander retarget only touches the behavior, target, timer and seed. -/
lemma dogWanderRetarget_state (m : MathFns) (d : DogS) :
    (dogWanderRetarget m d).velocity = d.velocity ∧
    (dogWanderRetarget m d).position = d.position ∧
    (dogWanderRetarget m d).collected = d.collected := by
  unfold dogWanderRetarget
  split_ifs <;> exact ⟨rfl, rfl, rfl⟩

/-- The wandering movement only touches the facing beyond the retarget. -/
lemma dogWander_state (m : MathFns) (dt : ℚ) (d : DogS) :
    (dogWander m dt d).1.velocity = d.velocity ∧
    (dogWander m dt d).1.position = d.position ∧
    (dogWander m dt d).1.collected = d.collected := by
  unfold dogWander
  dsimp only
  split_ifs <;>
    exact ⟨(dogWanderRetarget_state m d).1, (dogWanderRetarget_state m d).2.1,
      (dogWanderRetarget_state m d).2.2⟩

/-- The behavior portion of the dog update never touches the dog's velocity or
position, and a collected dog stays collected. -/
lemma dogDesired_state (m : MathFns) (hw : Bool) (player : Vec3) (dt : ℚ) (d0 : DogS) :
    (dogDesired m hw player dt d0).1.velocity = d0.velocity ∧
    (dogDesired m hw player dt d0).1.position = d0.position ∧
    (d0.collected = true → (dogDesired m hw player dt d0).1.collected = true) := by
  unfold dogDesired
  dsimp only
  split_ifs with hcol
  · exact ⟨((dogFollow_state m hw player dt _ _).1).trans
        (dogPickup_state m player _).1,
      ((dogFollow_state m hw player dt _ _).2.1).trans
        (dogPickup_state m player _).2.1,
      fun _ => ((dogFollow_state m hw player dt _ _).2.2).trans hcol⟩
  · refine ⟨((dogWander_state m dt _).1).trans (dogPickup_state m player _).1,
      ((dogWander_state m dt _).2.1).trans (dogPickup_state m player _).2.1,
      fun h => absurd ((dogPickup_state m player
        { d0 with behaviorTimer := d0.behaviorTimer - dt }).2.2 h) hcol⟩

/-- Once the game is won, a collected dog's desired velocity is zero. -/
lemma dogDesired_win_zero (m : MathFns) (player : Vec3) (dt : ℚ) (d0 : DogS)
    (hcol : d0.collected = true) :
    (dogDesired m true player dt d0).2 = ⟨0, 0, 0⟩ := by
  unfold dogDesired
  dsimp only
  split_ifs with hc
  · unfold dogFollow
    dsimp only
    rw [if_neg]
    rintro ⟨-, h⟩
    exact absurd h (by simp)
  · exact absurd ((dogPickup_state m player
      { d0 with behaviorTimer := d0.behaviorTimer - dt }).2.2 hcol) hc

/-- `clampQ x 0 1` lies in [0, 1]. -/
lemma clampQ_zero_one (x : ℚ) : 0 ≤ clampQ x 0 1 ∧ clampQ x 0 1 ≤ 1 := by
  unfold clampQ
  constructor
  · exact le_min (le_max_right x 0) (by norm_num)
  · exact min_le_right _ _

/-- C4 counterexample: the mummy's stand-off movement has no win gate.  On a
frame of the won game with the mummy at (-2, -0.05, -10) and the player 12 m
away at (10, -0.05, -10), the mummy's horizontal velocity after its update is
2.2 · clamp(4/6, -1, 1) = 22/15 ≠ 0, so not every agent's horizontal velocity
is frozen after the win.  The pinned square-root point 144 is a perfect
square. -/
theorem c4_counterexample :
    (mummyMove c4Fns platforms ⟨10, -1/20, -10⟩ (1/60)
      ⟨⟨-2, -1/20, -10⟩, ⟨0, 0, 0⟩, true⟩).velocity.x = 22/15 ∧
    (22 : ℚ)/15 ≠ 0 ∧
    c4Fns.sqrt 144 * c4Fns.sqrt 144 = 144 := by
  refine ⟨?_, by norm_num, by norm_num [c4Fns]⟩
  norm_num [mummyMove, resolveAll, resolveGround, resolvePlat, platHit,
    lengthBy, length2By, normalizeBy, clampQ, c4Fns, platforms, platformTop,
    gravity, mummySpeed]

/-- C4 amended: once the win state is entered, new player input is blocked
(the input direction is zeroed, so the player's horizontal velocity decays by
the factor 1 - clamp(accel·dt, 0, 1) each frame) and a collected dog's desired
velocity is zero (so its horizontal velocity decays likewise); but the mummy's
stand-off movement is not gated on the win and keeps producing nonzero
horizontal velocity (see the counterexample), so the agents are not all
frozen. -/
theorem c4_win_input_blocked (m : MathFns) (raw : Vec3) (sprint ogr : Bool)
    (vel : Vec3) (player : Vec3) (dt : ℚ) (d : DogS) (hcol : d.collected = true) :
    playerInputDir m raw true = ⟨0, 0, 0⟩ ∧
    (playerHorizVel m raw true sprint ogr vel dt).x =
      vel.x * (1 - clampQ ((if ogr then (24:ℚ) else 10) * dt) 0 1) ∧
    (playerHorizVel m raw true sprint ogr vel dt).z =
      vel.z * (1 - clampQ ((if ogr then (24:ℚ) else 10) * dt) 0 1) ∧
    |(playerHorizVel m raw true sprint ogr vel dt).x| ≤ |vel.x| ∧
    (dogDesired m true player dt d).2 = ⟨0, 0, 0⟩ ∧
    (dogStep m true platforms player dt d).velocity.x =
      d.velocity.x * (1 - clampQ (16 * dt) 0 1) ∧
    (dogStep m true platforms player dt d).velocity.z =
      d.velocity.z * (1 - clampQ (16 * dt) 0 1) := by
  have hdir : playerInputDir m raw true = ⟨0, 0, 0⟩ := by
    unfold playerInputDir
    simp
  have hx : (playerHorizVel m raw true sprint ogr vel dt).x =
      vel.x * (1 - clampQ ((if ogr then (24:ℚ) else 10) * dt) 0 1) := by
    unfold playerHorizVel
    rw [hdir]
    cases ogr <;> (simp [mixQ]; ring)
  have hz : (playerHorizVel m raw true sprint ogr vel dt).z =
      vel.z * (1 - clampQ ((if ogr then (24:ℚ) else 10) * dt) 0 1) := by
    unfold playerHorizVel
    rw [hdir]
    cases ogr <;> (simp [mixQ]; ring)
  have habs : |(playerHorizVel m raw true sprint ogr vel dt).x| ≤ |vel.x| := by
    rw [hx, abs_mul]
    have hc := clampQ_zero_one ((if ogr then (24:ℚ) else 10) * dt)
    calc |vel.x| * |1 - clampQ ((if ogr then (24:ℚ) else 10) * dt) 0 1|
        ≤ |vel.x| * 1 := by
          apply mul_le_mul_of_nonneg_left _ (abs_nonneg _)
          rw [abs_le]
          constructor <;> linarith [hc.1, hc.2]
      _ = |vel.x| := mul_one _
  have hzero := dogDesired_win_zero m player dt d hcol
  have hstate := dogDesired_state m true player dt d
  have hcol2 := hstate.2.2 hcol
  refine ⟨hdir, hx, hz, habs, hzero, ?_, ?_⟩
  · unfold dogStep
    simp only [hzero, hstate.1, hcol2]
    rw [(resolveAll_vel _ _ _).1]
    simp [mixQ]
    ring
  · unfold dogStep
    simp only [hzero, hstate.1, hcol2]
    rw [(resolveAll_vel _ _ _).2]
    simp [mixQ]
    ring

/-- C4 witness: the amended statement at a concrete won-game frame — raw input
(1,0,0), the player on the ground, a collected dog moving at (1, 0, 2). -/
theorem c4_witness :
    ((⟨⟨0, 0, 0⟩, true, 0, ⟨1, 0, 2⟩, true, Behavior.following, 1, ⟨0, 0, 0⟩,
        0, 0, 14/5, 5, 0⟩ : DogS).collected = true) ∧
    (playerInputDir c4Fns ⟨1, 0, 0⟩ true = ⟨0, 0, 0⟩ ∧
     (dogDesired c4Fns true ⟨10, 0, 0⟩ (1/60)
        ⟨⟨0, 0, 0⟩, true, 0, ⟨1, 0, 2⟩, true, Behavior.following, 1, ⟨0, 0, 0⟩,
          0, 0, 14/5, 5, 0⟩).2 = ⟨0, 0, 0⟩ ∧
     (dogStep c4Fns true platforms ⟨10, 0, 0⟩ (1/60)
        ⟨⟨0, 0, 0⟩, true, 0, ⟨1, 0, 2⟩, true, Behavior.following, 1, ⟨0, 0, 0⟩,
          0, 0, 14/5, 5, 0⟩).velocity.x =
       (⟨⟨0, 0, 0⟩, true, 0, ⟨1, 0, 2⟩, true, Behavior.following, 1, ⟨0, 0, 0⟩,
          0, 0, 14/5, 5, 0⟩ : DogS).velocity.x * (1 - clampQ (16 * (1/60)) 0 1)) := by
  have h := c4_win_input_blocked c4Fns ⟨1, 0, 0⟩ false true ⟨3, 0, 0⟩ ⟨10, 0, 0⟩ (1/60)
    ⟨⟨0, 0, 0⟩, true, 0, ⟨1, 0, 2⟩, true, Behavior.following, 1, ⟨0, 0, 0⟩,
      0, 0, 14/5, 5, 0⟩ rfl
  exact ⟨rfl, h.1, h.2.2.2.2.1, h.2.2.2.2.2.1⟩

/-- A fully active pool is left unchanged by the allocation scan. -/
lemma allocBomb_all_active (f : BombS → BombS) (L : List BombS)
    (h : ∀ b ∈ L, b.active = true) : allocBomb f L = L := by
  induction L with
  | nil => rfl
  | cons b rest ih =>
      unfold allocBomb
      rw [if_pos (h b (List.mem_cons_self b rest)),
        ih (fun x hx => h x (List.mem_cons_of_mem b hx))]

/-- The allocation scan transforms exactly the first inactive bomb. -/
lemma allocBomb_first_inactive (f : BombS → BombS) (pre : List BombS) (b : BombS)
    (post : List BombS) (hpre : ∀ x ∈ pre, x.active = true) (hb : b.active = false) :
    allocBomb f (pre ++ b :: post) = pre ++ f b :: post := by
  induction pre with
  | nil =>
      simp only [List.nil_append]
      unfold allocBomb
      rw [if_neg (by simp [hb])]
  | cons a rest ih =>
      simp only [List.cons_append]
      unfold allocBomb
      rw [if_pos (hpre a (List.mem_cons_self a rest)),
        ih (fun x hx => hpre x (List.mem_cons_of_mem a hx))]

/-- The allocation scan preserves the pool size. -/
lemma allocBomb_length (f : BombS → BombS) (L : List BombS) :
    (allocBomb f L).length = L.length := by
  induction L with
  | nil => rfl
  | cons b rest ih =>
      unfold allocBomb
      split
      · simpa using ih
      · simp

/-- The allocation scan activates at most one bomb. -/
lemma activeCount_allocBomb_le (f : BombS → BombS) (L : List BombS) :
    activeCount (allocBomb f L) ≤ activeCount L + 1 := by
  induction L with
  | nil => simp [allocBomb, activeCount]
  | cons b rest ih =>
      unfold allocBomb
      by_cases hb : b.active = true
      · rw [if_pos hb]
        unfold activeCount at ih ⊢
        simp only [List.countP_cons]
        omega
      · rw [if_neg hb]
        unfold activeCount
        simp only [List.countP_cons, hb]
        split <;> simp

/-- C6 amended: on a frame where the decayed cooldown is ≤ 0 and the planar
player distance is < 26, the cooldown resets to 1.1 and the first inactive
pooled bomb (if any) is activated with fuse 3.5, position mummy + (0,
halfSize + 0.6, 0) and vertical velocity 6.2; when the horizontal distance
exceeds the 0.001 normalization threshold the horizontal velocity is the unit
direction toward the player scaled by `7.5 + clamp(dist2D/16, 0, 1.2)`, whose
squared magnitude is exactly that speed squared; the number of active bombs
grows by at most one and never exceeds the pool size. -/
theorem c6_mummy_throw (m : MathFns) (mummyPos player : Vec3)
    (dist2D cooldown dt len : ℚ) (L : List BombS)
    (hc : cooldown - dt ≤ 0) (hd : dist2D < 26)
    (hlen : m.sqrt ((player.x - mummyPos.x)^2 + (0:ℚ)^2 + (player.z - mummyPos.z)^2) = len)
    (hlen2 : len * len = (player.x - mummyPos.x)^2 + (player.z - mummyPos.z)^2)
    (hpos : 1/1000 < len) :
    (mummyThrow m mummyPos player dist2D cooldown dt L).1 = 11/10 ∧
    ((∀ b ∈ L, b.active = true) →
      (mummyThrow m mummyPos player dist2D cooldown dt L).2 = L) ∧
    (∀ pre b post, L = pre ++ b :: post → (∀ x ∈ pre, x.active = true) →
      b.active = false →
      (mummyThrow m mummyPos player dist2D cooldown dt L).2 =
        pre ++ bombActivate m mummyPos player dist2D b :: post) ∧
    activeCount (mummyThrow m mummyPos player dist2D cooldown dt L).2 ≤
      activeCount L + 1 ∧
    activeCount (mummyThrow m mummyPos player dist2D cooldown dt L).2 ≤ L.length ∧
    (∀ b : BombS,
      (bombActivate m mummyPos player dist2D b).active = true ∧
      (bombActivate m mummyPos player dist2D b).timer = 7/2 ∧
      (bombActivate m mummyPos player dist2D b).position =
        ⟨mummyPos.x, mummyPos.y + 9/20 + 3/5, mummyPos.z⟩ ∧
      (bombActivate m mummyPos player dist2D b).velocity.y = 31/5 ∧
      (bombActivate m mummyPos player dist2D b).velocity.x =
        (player.x - mummyPos.x) / len * (15/2 + clampQ (dist2D / 16) 0 (6/5)) ∧
      (bombActivate m mummyPos player dist2D b).velocity.z =
        (player.z - mummyPos.z) / len * (15/2 + clampQ (dist2D / 16) 0 (6/5)) ∧
      (bombActivate m mummyPos player dist2D b).velocity.x ^ 2 +
        (bombActivate m mummyPos player dist2D b).velocity.z ^ 2 =
        (15/2 + clampQ (dist2D / 16) 0 (6/5)) ^ 2) := by
  have hcond : cooldown - dt ≤ 0 ∧ dist2D < 26 := ⟨hc, hd⟩
  have hact : ∀ b : BombS,
      bombActivate m mummyPos player dist2D b =
      { b with active := true, timer := 7/2,
               position := ⟨mummyPos.x, mummyPos.y + 9/20 + 3/5, mummyPos.z⟩,
               velocity := ⟨(player.x - mummyPos.x) / len *
                   (15/2 + clampQ (dist2D / 16) 0 (6/5)), 31/5,
                 (player.z - mummyPos.z) / len *
                   (15/2 + clampQ (dist2D / 16) 0 (6/5))⟩ } := by
    intro b
    unfold bombActivate normalizeBy lengthBy
    dsimp only
    rw [hlen, if_pos hpos]
  have hne : len ≠ 0 := ne_of_gt (lt_trans (by norm_num) hpos)
  unfold mummyThrow
  dsimp only
  rw [if_pos hcond]
  refine ⟨rfl, fun h => allocBomb_all_active _ L h, ?_, ?_, ?_, ?_⟩
  · intro pre b post hL hpre hb
    rw [hL]
    exact allocBomb_first_inactive _ pre b post hpre hb
  · exact activeCount_allocBomb_le _ L
  · calc activeCount (allocBomb (bombActivate m mummyPos player dist2D) L)
        ≤ (allocBomb (bombActivate m mummyPos player dist2D) L).length :=
          List.countP_le_length _
      _ = L.length := allocBomb_length _ L
  · intro b
    rw [hact b]
    refine ⟨rfl, rfl, rfl, rfl, rfl, rfl, ?_⟩
    dsimp only
    have key : (player.x - mummyPos.x)^2 + (player.z - mummyPos.z)^2 = len^2 := by
      rw [← hlen2]; ring
    have hs : ((player.x - mummyPos.x) / len * (15/2 + clampQ (dist2D / 16) 0 (6/5)))^2 +
        ((player.z - mummyPos.z) / len * (15/2 + clampQ (dist2D / 16) 0 (6/5)))^2 =
        ((player.x - mummyPos.x)^2 + (player.z - mummyPos.z)^2) *
          (15/2 + clampQ (dist2D / 16) 0 (6/5))^2 / len^2 := by ring
    rw [hs, key]
    field_simp
    ring

/-- C6 witness: the amended statement at the claim's scenario — mummy at the
origin, player at (10, 0, 0), pool of 12 fresh bombs, cooldown expired.  The
first pool slot is activated at (0, 1.05, 0); the horizontal speed is
7.5 + clamp(10/16, 0, 1.2) = 65/8 = 8.125 toward +x; the pinned square-root
point 100 is a perfect square. -/
theorem c6_witness :
    ((0:ℚ) - 1/60 ≤ 0 ∧ (10:ℚ) < 26 ∧
     c6Fns.sqrt (((10:ℚ) - 0)^2 + (0:ℚ)^2 + ((0:ℚ) - 0)^2) = 10 ∧
     (10:ℚ) * 10 = ((10:ℚ) - 0)^2 + ((0:ℚ) - 0)^2 ∧ (1:ℚ)/1000 < 10) ∧
    ((mummyThrow c6Fns ⟨0, 0, 0⟩ ⟨10, 0, 0⟩ 10 0 (1/60)
        (List.replicate 12 bombDefault)).1 = 11/10 ∧
     (mummyThrow c6Fns ⟨0, 0, 0⟩ ⟨10, 0, 0⟩ 10 0 (1/60)
        (List.replicate 12 bombDefault)).2 =
       [] ++ bombActivate c6Fns ⟨0, 0, 0⟩ ⟨10, 0, 0⟩ 10 bombDefault ::
         List.replicate 11 bombDefault ∧
     (bombActivate c6Fns ⟨0, 0, 0⟩ ⟨10, 0, 0⟩ 10 bombDefault).position =
       ⟨(0:ℚ), (0:ℚ) + 9/20 + 3/5, (0:ℚ)⟩ ∧
     (bombActivate c6Fns ⟨0, 0, 0⟩ ⟨10, 0, 0⟩ 10 bombDefault).velocity.y = 31/5 ∧
     (bombActivate c6Fns ⟨0, 0, 0⟩ ⟨10, 0, 0⟩ 10 bombDefault).velocity.x =
       ((10:ℚ) - 0) / 10 * (15/2 + clampQ ((10:ℚ) / 16) 0 (6/5)) ∧
     activeCount (mummyThrow c6Fns ⟨0, 0, 0⟩ ⟨10, 0, 0⟩ 10 0 (1/60)
        (List.replicate 12 bombDefault)).2 ≤ (List.replicate 12 bombDefault).length) ∧
    ((0:ℚ) + 9/20 + 3/5 = 21/20 ∧
     ((10:ℚ) - 0) / 10 * (15/2 + clampQ ((10:ℚ) / 16) 0 (6/5)) = 65/8) := by
  have h := c6_mummy_throw c6Fns ⟨0, 0, 0⟩ ⟨10, 0, 0⟩ 10 0 (1/60) 10
    (List.replicate 12 bombDefault) (by norm_num) (by norm_num)
    (by norm_num [c6Fns]) (by norm_num) (by norm_num)
  refine ⟨⟨by norm_num, by norm_num, by norm_num [c6Fns], by norm_num, by norm_num⟩,
    ⟨h.1, ?_, (h.2.2.2.2.2 bombDefault).2.2.1, (h.2.2.2.2.2 bombDefault).2.2.2.1,
      (h.2.2.2.2.2 bombDefault).2.2.2.2.1, h.2.2.2.2.1⟩,
    by norm_num, by norm_num [clampQ]⟩
  exact h.2.2.1 [] bombDefault (List.replicate 11 bombDefault) rfl (by simp) rfl

/-- C6 counterexample: when the player is horizontally within the 0.001
normalization threshold of the mummy (planar distance d = 0.0005 < 26), the
throw still fires but the horizontal direction is left unnormalized, so the
bomb's horizontal speed is d·(7.5 + clamp(d/16, 0, 1.2)) ≈ 0.00375, not the
claimed 7.5 + clamp(d/16, 0, 1.2).  The pinned square-root point is a perfect
square. -/
theorem c6_counterexample :
    (mummyThrow c6xFns ⟨0, 0, 0⟩ ⟨1/2000, 0, 0⟩
        (length2By c6xFns (1/2000 - 0) (0 - 0)) 0 (1/60) [bombDefault]).2 =
      [⟨⟨0, 21/20, 0⟩, ⟨240001/64000000, 31/5, 0⟩, 7/2, true⟩] ∧
    ((240001/64000000 : ℚ)^2 + (0:ℚ)^2 ≠
      (15/2 + clampQ ((length2By c6xFns (1/2000 - 0) (0 - 0)) / 16) 0 (6/5))^2) ∧
    length2By c6xFns (1/2000 - 0) (0 - 0) = 1/2000 ∧
    c6xFns.sqrt (1/4000000) * c6xFns.sqrt (1/4000000) = 1/4000000 ∧
    (0:ℚ) < 1/2000 ∧ (1/2000:ℚ) < 26 := by
  refine ⟨?_, ?_, ?_, ?_, by norm_num, by norm_num⟩
  · norm_num [mummyThrow, allocBomb, bombActivate, bombDefault, normalizeBy,
      lengthBy, length2By, clampQ, c6xFns]
  · norm_num [length2By, clampQ, c6xFns]
  · norm_num [length2By, c6xFns]
  · norm_num [c6xFns]

/-- Folding a filtered min-scan equals min-scanning the filtered list. -/
lemma foldl_scan_filter {α : Type} (f : α → ℚ) (tgt : α → Vec3) (pass : α → Bool)
    (L : List α) (acc : ℚ × Vec3) :
    L.foldl (fun acc a => if pass a then
        (if f a < acc.1 then (f a, tgt a) else acc) else acc) acc =
    (L.filter pass).foldl (fun acc a => if f a < acc.1 then (f a, tgt a) else acc) acc := by
  induction L generalizing acc with
  | nil => rfl
  | cons a rest ih =>
      by_cases hp : pass a
      · simp only [List.foldl_cons, List.filter_cons, hp, if_true, ih]
      · simp only [List.foldl_cons, List.filter_cons, hp, if_false, ih,
          Bool.false_eq_true]

/-- The accumulator-based min-scan computes the first minimum of the list:
earlier elements win ties because replacement needs a strictly smaller
score. -/
lemma foldl_min_firstMinBy {α : Type} (f : α → ℚ) (tgt : α → Vec3) (L : List α)
    (b : ℚ) (t : Vec3) :
    L.foldl (fun acc a => if f a < acc.1 then (f a, tgt a) else acc) (b, t) =
    (match firstMinBy f L with
     | none => (b, t)
     | some a => if f a < b then (f a, tgt a) else (b, t)) := by
  induction L generalizing b t with
  | nil => rfl
  | cons a rest ih =>
      rw [List.foldl_cons]
      by_cases hab : f a < b
      · rw [if_pos hab, ih]
        cases hm : firstMinBy f rest with
        | none => simp only [firstMinBy, hm, if_pos hab]
        | some c =>
            simp only [firstMinBy, hm]
            by_cases hac : f a ≤ f c
            · rw [if_neg (not_lt.mpr hac)]
              simp only [if_pos hac, if_pos hab]
            · rw [if_pos (not_le.mp hac)]
              simp only [if_neg hac, if_pos (lt_trans (not_le.mp hac) hab)]
      · rw [if_neg hab, ih]
        cases hm : firstMinBy f rest with
        | none => simp only [firstMinBy, hm, if_neg hab]
        | some c =>
            simp only [firstMinBy, hm]
            by_cases hac : f a ≤ f c
            · rw [if_neg (fun h => hab (lt_of_le_of_lt hac h))]
              simp only [if_pos hac, if_neg hab]
            · simp only [if_neg hac]

/-- The first minimum is an element of the list. -/
lemma firstMinBy_mem {α : Type} (f : α → ℚ) (L : List α) (a : α)
    (h : firstMinBy f L = some a) : a ∈ L := by
  induction L generalizing a with
  | nil => simp [firstMinBy] at h
  | cons b rest ih =>
      simp only [firstMinBy] at h
      split at h
      · cases h
        exact List.mem_cons_self _ _
      · rename_i c hm
        split at h <;> cases h
        · exact List.mem_cons_self _ _
        · exact List.mem_cons_of_mem b (ih _ hm)

/-- C3 amended: with `platformTop = center.y + halfExtents.y + clown.halfSize
(0.45)` in the filter, the score and the target's y-coordinate, the clown's
aiTarget when in aggro range and more than 0.6 below the player is the target
point of the first platform minimizing `distToPlayerXZ + 0.4·distToClownXZ +
|platformTop - player.y|` among platforms with `platformTop > clown.y + 0.4`
and `platformTop ≤ player.y + 0.3` whose scores are below the 1e9 sentinel
(ties broken by list order, first minimum kept); the player's position when no
platform qualifies. -/
theorem c3_clown_target_amended (m : MathFns) (plats : List Platform)
    (clownPos player : Vec3)
    (hlos : lengthBy m ⟨player.x - clownPos.x, player.y - clownPos.y,
      player.z - clownPos.z⟩ < 18)
    (hheight : clownPos.y + 3/5 < player.y)
    (hscore : ∀ P ∈ plats.filter (clownPlatPass clownPos player),
      clownPlatScore m clownPos player P < 1000000000) :
    clownAiTarget m plats clownPos player =
      (match firstMinBy (clownPlatScore m clownPos player)
          (plats.filter (clownPlatPass clownPos player)) with
       | none => player
       | some P => (⟨P.position.x, clownPlatTop P, P.position.z⟩ : Vec3)) := by
  unfold clownAiTarget
  dsimp only
  rw [if_pos ⟨hlos, hheight⟩, foldl_scan_filter, foldl_min_firstMinBy]
  cases hm : firstMinBy (clownPlatScore m clownPos player)
      (plats.filter (clownPlatPass clownPos player)) with
  | none => rfl
  | some P =>
      dsimp only
      rw [if_pos (hscore P (firstMinBy_mem _ _ _ hm))]

/-- C3 counterexample: with the clown at (0.475, 4.2, 9) and the player at
(0.475, 5.05, 9) on the real platform list, the code (whose platformTop
includes clown.halfSize = 0.45) selects platforms[12] and targets
(-2, 4.95, 8.5), while the claim's scoring (platformTop = center.y +
halfExtents.y) admits only platforms[13] and targets (-6, 4.9, 9).  Every
square root evaluated is a perfect rational square, as the last three
conjuncts state. -/
theorem c3_counterexample :
    clownAiTarget c3Fns platforms c3Clown c3Player = ⟨-2, 99/20, 17/2⟩ ∧
    clownAiTargetClaim c3Fns platforms c3Clown c3Player = ⟨-6, 49/10, 9⟩ ∧
    (⟨-2, 99/20, 17/2⟩ : Vec3) ≠ ⟨-6, 49/10, 9⟩ ∧
    c3Fns.sqrt (289/400) * c3Fns.sqrt (289/400) = 289/400 ∧
    c3Fns.sqrt (10201/1600) * c3Fns.sqrt (10201/1600) = 10201/1600 ∧
    c3Fns.sqrt (67081/1600) * c3Fns.sqrt (67081/1600) = 67081/1600 := by
  have habs1 : |(1:ℚ)/10| = 1/10 := abs_of_nonneg (by norm_num)
  have habs2 : |(3:ℚ)/10| = 3/10 := abs_of_nonneg (by norm_num)
  have habs3 : |(3:ℚ)/20| = 3/20 := abs_of_nonneg (by norm_num)
  refine ⟨?_, ?_, by simp, by norm_num [c3Fns], by norm_num [c3Fns], by norm_num [c3Fns]⟩
  · norm_num [clownAiTarget, clownPlatPass, clownPlatScore, clownPlatTop,
      clownHalfSize, platformTop, lengthBy, length2By, c3Fns, c3Clown, c3Player,
      platforms, decide_eq_true_eq, habs1, habs2, habs3]
  · norm_num [clownAiTargetClaim, platformTop, lengthBy, length2By, c3Fns,
      c3Clown, c3Player, platforms, decide_eq_true_eq, habs1, habs2, habs3]

/-- C3 witness: the amended statement evaluated at the counterexample state —
the filter keeps platforms[12] and platforms[13], whose scores 3.635 and 9.365
are far below the sentinel, and the first minimum is platforms[12]. -/
theorem c3_witness :
    (lengthBy c3Fns ⟨c3Player.x - c3Clown.x, c3Player.y - c3Clown.y,
        c3Player.z - c3Clown.z⟩ < 18 ∧
     c3Clown.y + 3/5 < c3Player.y ∧
     (∀ P ∈ platforms.filter (clownPlatPass c3Clown c3Player),
        clownPlatScore c3Fns c3Clown c3Player P < 1000000000)) ∧
    clownAiTarget c3Fns platforms c3Clown c3Player =
      (match firstMinBy (clownPlatScore c3Fns c3Clown c3Player)
          (platforms.filter (clownPlatPass c3Clown c3Player)) with
       | none => c3Player
       | some P => (⟨P.position.x, clownPlatTop P, P.position.z⟩ : Vec3)) := by
  have h1 : lengthBy c3Fns ⟨c3Player.x - c3Clown.x, c3Player.y - c3Clown.y,
      c3Player.z - c3Clown.z⟩ < 18 := by
    norm_num [lengthBy, c3Fns, c3Clown, c3Player]
  have h2 : c3Clown.y + 3/5 < c3Player.y := by norm_num [c3Clown, c3Player]
  have h3 : ∀ P ∈ platforms.filter (clownPlatPass c3Clown c3Player),
      clownPlatScore c3Fns c3Clown c3Player P < 1000000000 := by
    intro P hP
    simp only [platforms, clownPlatPass, clownPlatTop, clownHalfSize,
      platformTop, c3Clown, c3Player, List.filter, decide_eq_true_eq] at hP
    have habs1 : |(1:ℚ)/10| = 1/10 := abs_of_nonneg (by norm_num)
    have habs2 : |(3:ℚ)/10| = 3/10 := abs_of_nonneg (by norm_num)
    norm_num at hP
    rcases hP with rfl | rfl <;>
      norm_num [clownPlatScore, clownPlatTop, clownHalfSize, platformTop,
        length2By, c3Fns, c3Clown, c3Player, habs1, habs2]
  exact ⟨⟨h1, h2, h3⟩, c3_clown_target_amended c3Fns platforms c3Clown c3Player h1 h2 h3⟩

end Vibe3D
